import Mathlib

/-!
Verification of the real-time notification pipeline of the bm_ecommerce_admin
repository: a shallow embedding of the WebSocket connection service
(`src/services/websocket.ts`), the deduplicating notification hook
(`src/hooks/useNotifications.ts`) and the persisted sound-settings service
(`src/services/soundNotification.ts`), together with theorems settling the
specification's claims about them.
-/

namespace Hook

/-- Notification type tag, from the `type` union of `NotificationData` in
`src/services/websocket.ts`. -/
inductive NType
  | new_order
  | order_update
  | info
  | success
  | warning
  | error
deriving DecidableEq, Repr

/-- Payload of a `new_order` notification (`NewOrderNotification.data`). -/
structure OrderPayload where
  orderId : String
  customerName : String
  totalAmount : Int
  status : String
deriving DecidableEq, Repr

/-- The `NotificationData` interface of `src/services/websocket.ts`. The
`data` payload is present for `new_order` notifications. -/
structure NotificationData where
  id : String
  title : String
  message : String
  type : NType
  data : Option OrderPayload
  timestamp : String
  isRead : Bool
deriving DecidableEq, Repr

/-- The module-level global state of `src/hooks/useNotifications.ts`:
`globalShownToasts` (a JS `Set`, which preserves insertion order, modelled as
an insertion-ordered duplicate-free list), the `notifications` list and
`unreadCount` of `globalNotificationState`. `unreadCount` is an `Int`
because the source computes `Math.max(0, unreadCount - 1)` over JS numbers. -/
structure HookState where
  shownToasts : List String
  notifications : List NotificationData
  unreadCount : Int
deriving DecidableEq, Repr

/-- The initial global state: empty toast set, no notifications, zero unread. -/
def initialHookState : HookState :=
  { shownToasts := [], notifications := [], unreadCount := 0 }

/-- The `handleNotification` callback of `useNotifications.ts` (lines 66-175),
acting on the shared global state. Returns the updated state and whether the
alerts (toast, sound, speech) were dispatched for this call:
if `globalShownToasts.has(notification.id)` the call returns early (`false`);
otherwise the id is added to the set, then a second duplicate check against
the stored notifications list returns early; otherwise the notification is
prepended (keeping the previous `slice(0, 49)`), `unreadCount` is
incremented, and the toast/sound/speech alerts fire (`true`). -/
def handleNotification (s : HookState) (n : NotificationData) : HookState × Bool :=
  if n.id ∈ s.shownToasts then (s, false)
  else if ∃ m ∈ s.notifications, m.id = n.id then
    ({ s with shownToasts := s.shownToasts ++ [n.id] }, false)
  else
    ({ s with
        shownToasts := s.shownToasts ++ [n.id]
        notifications := n :: s.notifications.take 49
        unreadCount := s.unreadCount + 1 }, true)

/-- The periodic cleanup body of `useNotifications.ts` (lines 218-232): every
60 seconds, if more than 100 toast ids are recorded, keep only the last 100
(`Array.from(globalShownToasts).slice(-100)`). -/
def cleanupTick (s : HookState) : HookState :=
  if 100 < s.shownToasts.length then
    { s with shownToasts := s.shownToasts.drop (s.shownToasts.length - 100) }
  else s

/-- The `markAsRead` action (lines 255-266): marks the matching notification
read and decrements the unread counter with a floor of zero
(`Math.max(0, unreadCount - 1)`). -/
def markAsRead (s : HookState) (nid : String) : HookState :=
  { s with
      notifications :=
        s.notifications.map fun m => if m.id = nid then { m with isRead := true } else m
      unreadCount := max 0 (s.unreadCount - 1) }

/-- The `markAllAsRead` action (lines 268-277). -/
def markAllAsRead (s : HookState) : HookState :=
  { s with
      notifications := s.notifications.map fun m => { m with isRead := true }
      unreadCount := 0 }

/-- The `clearNotifications` action (lines 279-290): clears the notification
list, the unread counter and the global toast set. -/
def clearNotifications (_s : HookState) : HookState :=
  { shownToasts := [], notifications := [], unreadCount := 0 }

/-- One operation on the hook's global state. -/
inductive HookOp
  | recv (n : NotificationData)
  | markAsRead (nid : String)
  | markAllAsRead
  | clearNotifications
  | cleanup
deriving Repr

/-- Apply one operation to the state. -/
def applyOp (s : HookState) : HookOp → HookState
  | .recv n => (handleNotification s n).1
  | .markAsRead nid => markAsRead s nid
  | .markAllAsRead => markAllAsRead s
  | .clearNotifications => clearNotifications s
  | .cleanup => cleanupTick s

/-- Run a sequence of operations. -/
def runOps (s : HookState) : List HookOp → HookState
  | [] => s
  | op :: rest => runOps (applyOp s op) rest

/-- Run a sequence of incoming notifications through `handleNotification`. -/
def runNotifs (s : HookState) : List NotificationData → HookState
  | [] => s
  | n :: rest => runNotifs (handleNotification s n).1 rest

/-- Number of calls in the trace `ns`, started from state `s`, that dispatch
alerts for an event whose id is `e`. -/
def countDispatched (e : String) (s : HookState) : List NotificationData → Nat
  | [] => 0
  | n :: rest =>
    let r := handleNotification s n
    (if n.id = e ∧ r.2 = true then 1 else 0) + countDispatched e r.1 rest

/-- A plain notification with the given id, used to build concrete traces. -/
def mkN (i : String) : NotificationData :=
  { id := i, title := "t", message := "m", type := .info, data := none,
    timestamp := "now", isRead := false }

end Hook

namespace WS

/-- A socket.io client socket handle, as the `WebSocketService` sees it:
`sockId` distinguishes physically distinct sockets (the source passes
`forceNew: true`, so every `io(...)` call yields a fresh socket), and
`connected` is the library's `socket.connected` flag. -/
structure Sock where
  sockId : Nat
  connected : Bool
deriving DecidableEq, Repr

/-- A client-to-server frame emitted via `socket.emit`. -/
inductive Frame
  | join (room : String)
  | leave (room : String)
  | ping
deriving DecidableEq, Repr

/-- The mutable fields of the `WebSocketService` class in
`src/services/websocket.ts`, plus two modelling fields: `pendingReconnects`
records the delays of `setTimeout` reconnect timers that have been scheduled
by `handleReconnect` and have not yet fired (the source keeps no handle to
them), and `nextSockId` supplies fresh socket identities. -/
structure WSState where
  socket : Option Sock
  isConnected : Bool
  reconnectAttempts : Nat
  maxReconnectAttempts : Nat
  reconnectDelay : Nat
  pendingReconnects : List Nat
  nextSockId : Nat
deriving DecidableEq, Repr

/-- Field initial values of the `WebSocketService` class (lines 27-31). -/
def initialState : WSState :=
  { socket := none, isConnected := false, reconnectAttempts := 0,
    maxReconnectAttempts := 5, reconnectDelay := 1000,
    pendingReconnects := [], nextSockId := 0 }

/-- The `initializeConnection` method (lines 39-59): if no auth token is
available it returns without touching the socket; otherwise it calls
`io(backendUrl, { ..., forceNew: true })`, installing a brand-new,
not-yet-connected socket. -/
def initConnection (token : Option String) (s : WSState) : WSState :=
  match token with
  | none => s
  | some _ =>
    { s with
        socket := some { sockId := s.nextSockId, connected := false }
        nextSockId := s.nextSockId + 1 }

/-- The `handleReconnect` method (lines 121-135): if the attempt counter has
reached `maxReconnectAttempts` it logs and returns without scheduling;
otherwise it increments the counter and schedules a `setTimeout` for
`reconnectDelay * 2 ^ (reconnectAttempts - 1)` milliseconds. -/
def handleReconnect (s : WSState) : WSState :=
  if s.maxReconnectAttempts ≤ s.reconnectAttempts then s
  else
    let a := s.reconnectAttempts + 1
    { s with
        reconnectAttempts := a
        pendingReconnects := s.pendingReconnects ++ [s.reconnectDelay * 2 ^ (a - 1)] }

/-- The `connect` socket event handler (lines 64-74): marks the service
connected, resets the backoff counter and delay, and emits
`join_room "admin_orders"` on the socket (when one is installed). Returns
the frames emitted by this handler invocation. -/
def onConnect (s : WSState) : WSState × List Frame :=
  let s1 : WSState :=
    { s with
        socket := s.socket.map fun h => { h with connected := true }
        isConnected := true
        reconnectAttempts := 0
        reconnectDelay := 1000 }
  (s1, match s.socket with
       | some _ => [Frame.join "admin_orders"]
       | none => [])

/-- The `disconnect` socket event handler (lines 76-85): marks the service
disconnected; only when the reason is `io server disconnect` does it call
`handleReconnect`. The socket library has dropped the transport, so the
handle's `connected` flag is false. -/
def onDisconnect (serverInitiated : Bool) (s : WSState) : WSState :=
  let s1 : WSState :=
    { s with
        socket := s.socket.map fun h => { h with connected := false }
        isConnected := false }
  if serverInitiated then handleReconnect s1 else s1

/-- The `connect_error` socket event handler (lines 87-92): every connection
error — a handshake rejected for bad credentials included, since socket.io
surfaces auth rejection as `connect_error` — marks the service disconnected
and calls `handleReconnect`. -/
def onConnectError (s : WSState) : WSState :=
  handleReconnect
    { s with
        socket := s.socket.map fun h => { h with connected := false }
        isConnected := false }

/-- The public `connect` method (lines 137-144): if `this.socket?.connected`
it returns at once; otherwise it calls `initializeConnection`, which builds a
new socket whenever a token is available. -/
def connect (token : Option String) (s : WSState) : WSState :=
  match s.socket with
  | some h => if h.connected then s else initConnection token s
  | none => initConnection token s

/-- The public `disconnect` method (lines 146-153): if a socket exists it is
closed and dropped and `isConnected` cleared. No `setTimeout` handle is
stored anywhere in the class, so pending reconnect timers are untouched. -/
def disconnect (s : WSState) : WSState :=
  match s.socket with
  | some _ => { s with socket := none, isConnected := false }
  | none => s

/-- Firing of the earliest scheduled reconnect timer: the `setTimeout`
callback of `handleReconnect` (lines 132-134) runs `initializeConnection`. -/
def timerFire (token : Option String) (s : WSState) : WSState :=
  match s.pendingReconnects with
  | [] => s
  | _ :: rest => initConnection token { s with pendingReconnects := rest }

/-- The public `joinRoom` method (lines 189-193): emits a `join_room` frame
only when the socket is currently connected; the room is recorded nowhere. -/
def joinRoom (room : String) (s : WSState) : WSState × List Frame :=
  match s.socket with
  | some h => if h.connected then (s, [Frame.join room]) else (s, [])
  | none => (s, [])

/-- The public `leaveRoom` method (lines 195-199). -/
def leaveRoom (room : String) (s : WSState) : WSState × List Frame :=
  match s.socket with
  | some h => if h.connected then (s, [Frame.leave room]) else (s, [])
  | none => (s, [])

/-- The `notification` socket event handler (lines 94-106) runs
`this.notificationCallbacks.forEach((callback, index) => callback(n))`.
`invokedFrom i cbs n` computes which callback indices (counting from `i`)
actually run, and the error of the first callback that throws, if any:
`Array.prototype.forEach` stops and propagates as soon as a callback throws. -/
def invokedFrom (i : Nat) (n : Hook.NotificationData) :
    List (Hook.NotificationData → Except String Unit) → List Nat × Option String
  | [] => ([], none)
  | c :: rest =>
    match c n with
    | .error e => ([i], some e)
    | .ok _ =>
      let r := invokedFrom (i + 1) n rest
      (i :: r.1, r.2)

/-- Fan-out of one notification over the registered callbacks, from index 0. -/
def notifyAll (cbs : List (Hook.NotificationData → Except String Unit))
    (n : Hook.NotificationData) : List Nat × Option String :=
  invokedFrom 0 n cbs

end WS

namespace SoundSettings

/-- The sound choice union of `NotificationSettings.soundType` in
`src/services/soundNotification.ts`. -/
inductive SoundType
  | default
  | chime
  | bell
  | notification
deriving DecidableEq, Repr

/-- The `NotificationSettings` interface of `src/services/soundNotification.ts`.
Volume is a JS number in 0..1; the embedding uses rationals. -/
structure NotificationSettings where
  enabled : Bool
  volume : ℚ
  soundType : SoundType
deriving DecidableEq, Repr

/-- The in-class initializer of `notificationSettings` (lines 17-21), which is
also what `get`/`load` fall back to when nothing is stored. -/
def defaultSettings : NotificationSettings :=
  { enabled := true, volume := 7/10, soundType := .default }

/-- A `Partial<NotificationSettings>` argument: each field optionally present. -/
structure SettingsPatch where
  enabled : Option Bool := none
  volume : Option ℚ := none
  soundType : Option SoundType := none
deriving DecidableEq, Repr

/-- The JS object spread `{ ...current, ...patch }`: fields present in the
patch override the current value. -/
def mergeSettings (cur : NotificationSettings) (p : SettingsPatch) : NotificationSettings :=
  { enabled := p.enabled.getD cur.enabled
    volume := p.volume.getD cur.volume
    soundType := p.soundType.getD cur.soundType }

/-- The `setSettings` method (lines 195-199) together with `saveSettings`
(lines 41-47): merge the patch into the in-memory settings and persist the
full merged object under the `notification-settings` localStorage key.
The pair returned is (new in-memory settings, new stored record). -/
def setSettings (p : SettingsPatch) (mem : NotificationSettings)
    (_store : Option NotificationSettings) :
    NotificationSettings × Option NotificationSettings :=
  let merged := mergeSettings mem p
  (merged, some merged)

/-- The `loadSettings` method (lines 30-39), run by the constructor on every
process start: if a record is stored, the parsed object is spread over the
field defaults — and since `saveSettings` always stores the full settings
object, every field of the defaults is overridden by the stored value;
otherwise the defaults stand. -/
def loadSettings (store : Option NotificationSettings) : NotificationSettings :=
  match store with
  | none => defaultSettings
  | some saved => mergeSettings defaultSettings
      { enabled := some saved.enabled, volume := some saved.volume,
        soundType := some saved.soundType }

/-- The `getSettings` method (lines 201-203): returns a copy of the
in-memory settings. -/
def getSettings (mem : NotificationSettings) : NotificationSettings := mem

end SoundSettings

section Scenarios

open Hook WS

/-- A list of 101 distinct event ids, written as decimal strings. -/
def ids101 : List String := (List.range 101).map Nat.repr

/-- Service state after the constructor ran with a token available: a fresh
socket is installed but the handshake has not completed yet. -/
def connectingState : WSState := initConnection (some "tok") initialState

/-- Service state after the handshake succeeded (the `connect` event fired). -/
def connectedState : WSState := (onConnect connectingState).1

/-- Scenario for claim C3: while connected the transport errors, so
`handleReconnect` schedules a retry timer; then the caller invokes the
public `disconnect`. -/
def c3_afterDisconnect : WSState := disconnect (onConnectError connectedState)

/-- Scenario for claim C3, continued: the scheduled reconnect timer fires
after the explicit disconnect. -/
def c3_afterTimer : WSState := timerFire (some "tok") c3_afterDisconnect

/-- Scenario for claim C5: while connected, the caller joins a second room
beyond the hard-coded one. -/
def c5_afterJoin : WSState := (joinRoom "store_updates" connectedState).1

/-- Scenario for claim C5, continued: the connection errors, the retry timer
fires, and the new handshake completes; these are the frames the `connect`
handler emits on that transition into Connected. -/
def c5_reconnectFrames : List Frame :=
  (onConnect (timerFire (some "tok") (onConnectError c5_afterJoin))).2

/-- A listener callback that always throws. -/
def cbThrow : Hook.NotificationData → Except String Unit :=
  fun _ => .error "listener failure"

/-- A listener callback that returns normally. -/
def cbOk : Hook.NotificationData → Except String Unit :=
  fun _ => .ok ()

/-- The invariant relating the two duplicate checks of `handleNotification`:
every stored notification's id is recorded in the global toast set. It holds
in every state reachable through `handleNotification` from the initial
state. -/
def NotifIdsRecorded (s : HookState) : Prop :=
  ∀ m ∈ s.notifications, m.id ∈ s.shownToasts

end Scenarios

section Theorems

open Hook WS SoundSettings

/-- C7: every settings update merges the partial change into the current
settings and persists the full merged object; after `updateSettings` with
`volume = 3/10` followed by a process restart (a fresh `loadSettings` from
the store), `get` returns settings with volume `3/10` and every other
previously set field retained. -/
theorem updateSettings_roundTrip :
    ∀ (mem : NotificationSettings) (store : Option NotificationSettings)
      (p : SettingsPatch),
      setSettings p mem store = (mergeSettings mem p, some (mergeSettings mem p)) ∧
      getSettings (loadSettings (setSettings p mem store).2) = mergeSettings mem p ∧
      getSettings (loadSettings
          (setSettings { volume := some (3/10) } mem store).2) =
        { mem with volume := 3/10 } := by
  intro mem store p
  refine ⟨rfl, ?_, ?_⟩ <;>
    simp [getSettings, loadSettings, setSettings, mergeSettings]

/-- C2: while attempts remain and the base delay field still holds its
constant value 1000, the n-th reconnect attempt (entered with the counter at
n-1) schedules exactly one retry with delay `1000 * 2 ^ (n-1)` ms — so the
delays for attempts 1..5 are 1000, 2000, 4000, 8000, 16000, monotonically
non-decreasing; once five attempts are used, `handleReconnect` schedules
nothing further; and every successful `connect` event resets the counter to
zero and the base delay to 1000. -/
theorem reconnect_backoff_delays :
    (∀ s : WSState, s.reconnectAttempts < s.maxReconnectAttempts →
        s.reconnectDelay = 1000 →
        handleReconnect s =
          { s with
              reconnectAttempts := s.reconnectAttempts + 1
              pendingReconnects :=
                s.pendingReconnects ++ [1000 * 2 ^ s.reconnectAttempts] }) ∧
    ((List.range 5).map (fun k => 1000 * 2 ^ k) = [1000, 2000, 4000, 8000, 16000]) ∧
    (∀ n : Nat, 1000 * 2 ^ (n - 1) ≤ 1000 * 2 ^ n) ∧
    (∀ s : WSState, s.maxReconnectAttempts ≤ s.reconnectAttempts →
        handleReconnect s = s) ∧
    (∀ s : WSState,
        (onConnect s).1.reconnectAttempts = 0 ∧ (onConnect s).1.reconnectDelay = 1000) ∧
    initialState.maxReconnectAttempts = 5 := by
  refine ⟨?_, by decide, ?_, ?_, ?_, rfl⟩
  · intro s h hd
    simp [handleReconnect, Nat.not_le.mpr h, hd]
  · intro n
    exact Nat.mul_le_mul_left _ (Nat.pow_le_pow_right (by norm_num) (Nat.sub_le n 1))
  · intro s h
    simp [handleReconnect, h]
  · intro s
    exact ⟨rfl, rfl⟩

/-- Witness for `reconnect_backoff_delays` at concrete states: the first
attempt from the initial state schedules a 1000 ms retry, and a state that
has used five attempts schedules nothing. -/
theorem reconnect_backoff_delays_witness :
    handleReconnect initialState =
      { initialState with reconnectAttempts := 1, pendingReconnects := [1000] } ∧
    handleReconnect { initialState with reconnectAttempts := 5 } =
      { initialState with reconnectAttempts := 5 } := by
  have h := reconnect_backoff_delays
  constructor
  · have h1 := h.1 initialState (by decide) rfl
    simpa using h1
  · exact h.2.2.2.1 { initialState with reconnectAttempts := 5 } (by decide)

lemma handleNotification_unread (s : HookState) (n : NotificationData) :
    (handleNotification s n).1.unreadCount = s.unreadCount ∨
    (handleNotification s n).1.unreadCount = s.unreadCount + 1 := by
  unfold handleNotification
  split
  · exact Or.inl rfl
  · split
    · exact Or.inl rfl
    · exact Or.inr rfl

lemma applyOp_unread_nonneg (s : HookState) (op : HookOp)
    (h : 0 ≤ s.unreadCount) : 0 ≤ (applyOp s op).unreadCount := by
  cases op with
  | recv n =>
    rcases handleNotification_unread s n with h1 | h1 <;>
      simp only [applyOp, h1] <;> omega
  | markAsRead nid => exact le_max_left 0 _
  | markAllAsRead => exact le_refl 0
  | clearNotifications => exact le_refl 0
  | cleanup =>
    simp only [applyOp, cleanupTick]
    split <;> exact h

lemma runOps_unread_nonneg (ops : List HookOp) :
    ∀ s : HookState, 0 ≤ s.unreadCount → 0 ≤ (runOps s ops).unreadCount := by
  induction ops with
  | nil => exact fun s h => h
  | cons op rest ih =>
    intro s h
    exact ih (applyOp s op) (applyOp_unread_nonneg s op h)

/-- C10: the unread counter is never negative: starting from the initial
state, any sequence of operations — accepting a new event (increments),
`markAsRead` (decrements with a floor of zero, even when already zero or on
an already-read notification), `markAllAsRead` or `clearNotifications`
(reset to zero), and the periodic cleanup — leaves `unreadCount ≥ 0`. -/
theorem unreadCount_nonneg (ops : List HookOp) :
    0 ≤ (runOps initialHookState ops).unreadCount :=
  runOps_unread_nonneg ops initialHookState (le_refl 0)

lemma mem_shownToasts_handle (e : String) (s : HookState) (n : NotificationData)
    (h : e ∈ s.shownToasts) : e ∈ (handleNotification s n).1.shownToasts := by
  unfold handleNotification
  split
  · exact h
  · split <;> exact List.mem_append_left _ h

lemma handle_fresh (s : HookState) (n : NotificationData) (h : n.id ∉ s.shownToasts) :
    (handleNotification s n).1.shownToasts = s.shownToasts ++ [n.id] := by
  unfold handleNotification
  rw [if_neg h]
  split <;> rfl

lemma handle_stale (s : HookState) (n : NotificationData) (h : n.id ∈ s.shownToasts) :
    handleNotification s n = (s, false) := by
  unfold handleNotification
  exact if_pos h

lemma recorded_preserved (s : HookState) (n : NotificationData)
    (h : NotifIdsRecorded s) : NotifIdsRecorded (handleNotification s n).1 := by
  unfold handleNotification
  split
  · exact h
  · split
    · intro m hm
      exact List.mem_append_left _ (h m hm)
    · intro m hm
      rcases List.mem_cons.mp hm with h1 | h1
      · subst h1
        exact List.mem_append_right _ (List.mem_singleton.mpr rfl)
      · exact List.mem_append_left _ (h m (List.mem_of_mem_take h1))

lemma countDispatched_of_mem (e : String) :
    ∀ (ns : List NotificationData) (s : HookState), e ∈ s.shownToasts →
      countDispatched e s ns = 0 := by
  intro ns
  induction ns with
  | nil => intro s _; rfl
  | cons n rest ih =>
    intro s h
    have hne : ¬ (n.id = e ∧ (handleNotification s n).2 = true) := by
      rintro ⟨rfl, hd⟩
      rw [handle_stale s n h] at hd
      exact Bool.false_ne_true hd
    simp only [countDispatched, if_neg hne, Nat.zero_add]
    exact ih _ (mem_shownToasts_handle e s n h)

lemma countDispatched_eq (e : String) :
    ∀ (ns : List NotificationData) (s : HookState), NotifIdsRecorded s →
      e ∉ s.shownToasts →
      countDispatched e s ns =
        if e ∈ ns.map NotificationData.id then 1 else 0 := by
  intro ns
  induction ns with
  | nil => intro s _ _; rfl
  | cons n rest ih =>
    intro s hinv he
    by_cases hn : n.id ∈ s.shownToasts
    · have hne : n.id ≠ e := fun h => he (h ▸ hn)
      have hterm : ¬ (n.id = e ∧ (handleNotification s n).2 = true) := fun h => hne h.1
      simp only [countDispatched, if_neg hterm, Nat.zero_add, handle_stale s n hn]
      rw [ih s hinv he]
      simp [Ne.symm hne]
    · have hfresh : (handleNotification s n).1.shownToasts = s.shownToasts ++ [n.id] :=
        handle_fresh s n hn
      have hnotdup : ¬ ∃ m ∈ s.notifications, m.id = n.id := by
        rintro ⟨m, hm, hid⟩
        exact hn (hid ▸ hinv m hm)
      have hdisp : handleNotification s n =
          ({ s with
              shownToasts := s.shownToasts ++ [n.id]
              notifications := n :: s.notifications.take 49
              unreadCount := s.unreadCount + 1 }, true) := by
        unfold handleNotification
        rw [if_neg hn, if_neg hnotdup]
      by_cases hid : n.id = e
      · subst hid
        have hmem : n.id ∈ (handleNotification s n).1.shownToasts := by
          rw [hfresh]
          exact List.mem_append_right _ (List.mem_singleton.mpr rfl)
        have hrest : countDispatched n.id (handleNotification s n).1 rest = 0 :=
          countDispatched_of_mem n.id rest _ hmem
        simp [countDispatched, hdisp, hdisp ▸ hrest]
      · have hterm : ¬ (n.id = e ∧ (handleNotification s n).2 = true) := fun h => hid h.1
        simp only [countDispatched, if_neg hterm, Nat.zero_add]
        have hnotin : e ∉ (handleNotification s n).1.shownToasts := by
          rw [hfresh]
          intro hmem
          rcases List.mem_append.mp hmem with h1 | h1
          · exact he h1
          · exact hid (List.mem_singleton.mp h1).symm
        rw [ih (handleNotification s n).1 (recorded_preserved s n hinv) hnotin]
        simp [Ne.symm hid]

/-- C1: the deduplicating notification handler, acting on the global shared
toast set, dispatches alerts for each event id exactly once: over any
sequence of handler calls from the initial state — the same frame
redelivered twice in a row and calls made on behalf of any number of
registered listeners included, since all share the global set — the number
of calls that dispatch alerts for id `e` is one if some call carries id `e`
and zero otherwise. -/
theorem dedup_accepts_each_id_exactly_once (ns : List NotificationData) (e : String) :
    countDispatched e initialHookState ns =
      if e ∈ ns.map NotificationData.id then 1 else 0 :=
  countDispatched_eq e ns initialHookState
    (fun m hm => absurd hm (List.not_mem_nil m)) (List.not_mem_nil e)

lemma runNotifs_toasts :
    ∀ (ids : List String) (s : HookState), ids.Nodup →
      (∀ i ∈ ids, i ∉ s.shownToasts) →
      (runNotifs s (ids.map mkN)).shownToasts = s.shownToasts ++ ids := by
  intro ids
  induction ids with
  | nil => intro s _ _; simp [runNotifs]
  | cons i rest ih =>
    intro s hnd h
    obtain ⟨hnotin, hndrest⟩ := List.nodup_cons.mp hnd
    have hi : (mkN i).id ∉ s.shownToasts := h i (List.mem_cons_self i rest)
    simp only [List.map_cons, runNotifs]
    rw [ih _ hndrest ?_]
    · rw [handle_fresh s (mkN i) hi]
      simp [mkN]
    · intro j hj
      rw [handle_fresh s (mkN i) hi]
      intro hmem
      rcases List.mem_append.mp hmem with h1 | h1
      · exact h j (List.mem_cons_of_mem i hj) h1
      · rw [List.mem_singleton.mp h1] at hj
        exact hnotin hj

/-- C6 counterexample: inserting 101 distinct event ids through the handler
leaves all 101 in the window — not 100 as the claim states — because
insertion performs no eviction; only the separate periodic cleanup trims. -/
theorem dedup_window_counterexample :
    ids101.Nodup ∧ ids101.length = 101 ∧
    (runNotifs initialHookState (ids101.map mkN)).shownToasts.length = 101 := by
  have hnd : ids101.Nodup := by decide
  refine ⟨hnd, by decide, ?_⟩
  rw [runNotifs_toasts ids101 initialHookState hnd
      (fun i _ hmem => absurd hmem (List.not_mem_nil i))]
  simp [ids101, initialHookState]

/-- C6 (amended): insertion into the dedup window performs no eviction, so
after 101 distinct ids all 101 are present; eviction is a separate periodic
cleanup pass (every 60 seconds) which trims the window to the 100 most
recently inserted ids — one pass after the 101 insertions leaves exactly
100 ids, with the earliest-inserted id the one evicted (FIFO). -/
theorem dedup_window_periodic_trim (ids : List String)
    (hlen : ids.length = 101) (hnd : ids.Nodup) :
    (runNotifs initialHookState (ids.map mkN)).shownToasts = ids ∧
    (cleanupTick (runNotifs initialHookState (ids.map mkN))).shownToasts = ids.drop 1 ∧
    (cleanupTick (runNotifs initialHookState (ids.map mkN))).shownToasts.length = 100 := by
  have htoasts : (runNotifs initialHookState (ids.map mkN)).shownToasts = ids := by
    rw [runNotifs_toasts ids initialHookState hnd
        (fun i _ hmem => absurd hmem (List.not_mem_nil i))]
    simp [initialHookState]
  have htrim : (cleanupTick (runNotifs initialHookState (ids.map mkN))).shownToasts =
      ids.drop 1 := by
    unfold cleanupTick
    rw [if_pos (by rw [htoasts, hlen]; norm_num)]
    simp only [htoasts, hlen]
  refine ⟨htoasts, htrim, ?_⟩
  rw [htrim, List.length_drop, hlen]

/-- Witness for `dedup_window_periodic_trim` at the concrete id list
`ids101`. -/
theorem dedup_window_periodic_trim_witness :
    (cleanupTick (runNotifs initialHookState (ids101.map mkN))).shownToasts.length = 100 :=
  (dedup_window_periodic_trim ids101 (by decide) (by decide)).2.2

/-- C3 counterexample: after a transport error schedules a reconnect timer,
an explicit `disconnect()` drops the socket but leaves the timer pending;
when it fires, `initializeConnection` builds a fresh socket — the service
leaves the disconnected state without the caller invoking `connect()`. -/
theorem disconnect_timer_counterexample :
    c3_afterDisconnect.socket = none ∧
    c3_afterDisconnect.isConnected = false ∧
    c3_afterDisconnect.pendingReconnects = [1000] ∧
    c3_afterTimer.socket = some { sockId := 1, connected := false } := by decide

/-- C3 (amended): `disconnect()` drops the socket handle and clears the
connected flag, but it cancels no reconnect timer — the class stores no
`setTimeout` handle — so a reconnect scheduled before the disconnect still
fires `initializeConnection`, which installs a fresh socket whenever an auth
token is available. -/
theorem disconnect_does_not_cancel_timers :
    (∀ s : WSState, (disconnect s).pendingReconnects = s.pendingReconnects) ∧
    (∀ s : WSState, (disconnect s).socket = none) ∧
    (∀ (s : WSState) (tok : String) (d : Nat) (rest : List Nat),
        s.pendingReconnects = d :: rest →
        ((timerFire (some tok) (disconnect s)).socket).isSome = true) := by
  refine ⟨?_, ?_, ?_⟩
  · intro s
    cases hs : s.socket <;> simp [disconnect, hs]
  · intro s
    cases hs : s.socket <;> simp [disconnect, hs]
  · intro s tok d rest h
    cases hs : s.socket <;>
      simp [disconnect, timerFire, initConnection, hs, h]

/-- Witness for `disconnect_does_not_cancel_timers`: the concrete scenario
state, where one 1000 ms reconnect is pending at disconnect time. -/
theorem disconnect_does_not_cancel_timers_witness :
    ((timerFire (some "tok") (disconnect (onConnectError connectedState))).socket).isSome
      = true :=
  disconnect_does_not_cancel_timers.2.2 (onConnectError connectedState) "tok" 1000 []
    (by decide)

/-- C4 counterexample: from the freshly connected state (zero attempts used,
nothing pending), a rejected handshake — delivered by socket.io as
`connect_error` — consumes one reconnect attempt and schedules a 1000 ms
retry, contradicting the claim that auth failures are terminal with no
retry. -/
theorem auth_error_counterexample :
    connectedState.reconnectAttempts = 0 ∧
    connectedState.pendingReconnects = [] ∧
    (onConnectError connectedState).reconnectAttempts = 1 ∧
    (onConnectError connectedState).pendingReconnects = [1000] ∧
    (onConnectError connectedState).isConnected = false := by decide

/-- C4 (amended): a handshake rejected for authentication surfaces as
`connect_error` and is handled like any transport error: the service reports
disconnected and calls `handleReconnect`, which consumes a reconnect attempt
and schedules a backoff retry while attempts remain, and schedules nothing
once the attempt budget is exhausted; recovery with a fresh token still goes
through the caller invoking `connect()` again. -/
theorem auth_error_triggers_reconnect :
    (∀ s : WSState, s.reconnectAttempts < s.maxReconnectAttempts →
        (onConnectError s).isConnected = false ∧
        (onConnectError s).reconnectAttempts = s.reconnectAttempts + 1 ∧
        (onConnectError s).pendingReconnects =
          s.pendingReconnects ++ [s.reconnectDelay * 2 ^ s.reconnectAttempts]) ∧
    (∀ s : WSState, s.maxReconnectAttempts ≤ s.reconnectAttempts →
        (onConnectError s).isConnected = false ∧
        (onConnectError s).reconnectAttempts = s.reconnectAttempts ∧
        (onConnectError s).pendingReconnects = s.pendingReconnects) := by
  constructor
  · intro s h
    unfold onConnectError handleReconnect
    simp [Nat.not_le.mpr h]
  · intro s h
    unfold onConnectError handleReconnect
    simp [h]

/-- Witness for `auth_error_triggers_reconnect` at the connected scenario
state. -/
theorem auth_error_triggers_reconnect_witness :
    (onConnectError connectedState).reconnectAttempts = 1 := by
  have h := (auth_error_triggers_reconnect.1 connectedState (by decide)).2.1
  rw [h]
  decide

/-- C5 counterexample: the caller joins `store_updates` while connected (the
join frame is sent), never leaves it, the connection drops and reconnects —
and the `connect` handler re-joins only the hard-coded `admin_orders` room;
no join frame for `store_updates` is sent on the new connection. -/
theorem rejoin_counterexample :
    (joinRoom "store_updates" connectedState).2 = [Frame.join "store_updates"] ∧
    c5_reconnectFrames = [Frame.join "admin_orders"] ∧
    Frame.join "store_updates" ∉ c5_reconnectFrames := by decide

/-- C5 (amended): on every transition into Connected the handler emits
exactly one join frame, for the hard-coded room `admin_orders` (none when no
socket is installed); `joinRoom` records nothing in the service state, so
rooms joined through it are never re-joined automatically after a
reconnect. -/
theorem reconnect_joins_only_admin_orders :
    ∀ s : WSState,
      (onConnect s).2 =
        (match s.socket with
         | some _ => [Frame.join "admin_orders"]
         | none => ([] : List Frame)) ∧
      (∀ room : String, (joinRoom room s).1 = s) := by
  intro s
  constructor
  · rfl
  · intro room
    cases s with
    | mk sock c ra mra rd pend nid =>
      cases sock with
      | none => rfl
      | some h =>
        simp only [joinRoom]
        split <;> rfl

/-- C8 counterexample: with two registered listeners of which the first
throws, the `forEach` fan-out invokes only index 0; the second listener
(index 1) is never invoked for the event, contradicting the claim that the
remaining listeners still run. -/
theorem listener_throw_counterexample :
    notifyAll [cbThrow, cbOk] (mkN "n1") = ([0], some "listener failure") ∧
    1 ∉ (notifyAll [cbThrow, cbOk] (mkN "n1")).1 := by
  refine ⟨rfl, ?_⟩
  decide

lemma invokedFrom_append_throw (n : NotificationData) (err : String)
    (cb : NotificationData → Except String Unit) (hcb : cb n = .error err) :
    ∀ (cbs1 cbs2 : List (NotificationData → Except String Unit)) (i : Nat),
      (∀ c ∈ cbs1, c n = .ok ()) →
      invokedFrom i n (cbs1 ++ cb :: cbs2) = (List.range' i (cbs1.length + 1), some err) := by
  intro cbs1
  induction cbs1 with
  | nil =>
    intro cbs2 i _
    simp [invokedFrom, hcb, List.range']
  | cons c rest ih =>
    intro cbs2 i hok
    have hc : c n = .ok () := hok c (List.mem_cons_self c rest)
    simp only [List.cons_append, invokedFrom, hc, List.append_eq]
    rw [ih cbs2 (i + 1) (fun c' h => hok c' (List.mem_cons_of_mem c h))]
    simp [List.range']

/-- C8 (amended): the fan-out runs the registered callbacks in registration
order with no exception containment: when one callback throws, the callbacks
registered before it have already been invoked, the exception propagates out
of the `forEach` loop, and the callbacks registered after it are not invoked
for that event. -/
theorem listener_throw_stops_fanout
    (cbs1 cbs2 : List (NotificationData → Except String Unit))
    (cb : NotificationData → Except String Unit)
    (n : NotificationData) (err : String)
    (hok : ∀ c ∈ cbs1, c n = .ok ()) (hcb : cb n = .error err) :
    notifyAll (cbs1 ++ cb :: cbs2) n = (List.range (cbs1.length + 1), some err) := by
  unfold notifyAll
  rw [invokedFrom_append_throw n err cb hcb cbs1 cbs2 0 hok, List.range_eq_range']

/-- Witness for `listener_throw_stops_fanout`: one well-behaved listener
before the throwing one, one after; exactly indices 0 and 1 run. -/
theorem listener_throw_stops_fanout_witness :
    notifyAll [cbOk, cbThrow, cbOk] (mkN "n2") = ([0, 1], some "listener failure") := by
  have h := listener_throw_stops_fanout [cbOk] [cbOk] cbThrow (mkN "n2") "listener failure"
    (by intro c hc; rw [List.mem_singleton.mp hc]; rfl) rfl
  simpa using h

/-- C9 counterexample: in the Connecting state — a socket installed by
`initializeConnection` whose handshake has not completed — calling the
public `connect()` is not a no-op: it builds a second physical socket,
replacing the handle. -/
theorem connect_counterexample :
    connectingState.socket = some { sockId := 0, connected := false } ∧
    (connect (some "tok") connectingState).socket =
      some { sockId := 1, connected := false } ∧
    connect (some "tok") connectingState ≠ connectingState := by decide

/-- C9 (amended): `connect()` is a no-op exactly when the current socket is
connected; when a socket exists but its handshake is still in flight
(Connecting), or no socket exists, `connect()` runs `initializeConnection`,
which installs a brand-new socket whenever an auth token is available and
changes nothing when there is none. -/
theorem connect_noop_only_when_connected :
    (∀ (s : WSState) (t : Option String) (h : Sock),
        s.socket = some h → h.connected = true → connect t s = s) ∧
    (∀ (s : WSState) (tok : String) (h : Sock),
        s.socket = some h → h.connected = false →
        (connect (some tok) s).socket = some { sockId := s.nextSockId, connected := false } ∧
        (connect (some tok) s).nextSockId = s.nextSockId + 1) ∧
    (∀ (s : WSState) (tok : String),
        s.socket = none →
        (connect (some tok) s).socket = some { sockId := s.nextSockId, connected := false } ∧
        (connect (some tok) s).nextSockId = s.nextSockId + 1) ∧
    (∀ s : WSState, connect none s = s) := by
  refine ⟨?_, ?_, ?_, ?_⟩
  · intro s t h hs hc
    simp [connect, hs, hc]
  · intro s tok h hs hc
    simp [connect, hs, hc, initConnection]
  · intro s tok hs
    simp [connect, hs, initConnection]
  · intro s
    cases hs : s.socket with
    | none => simp [connect, hs, initConnection]
    | some h =>
      by_cases hc : h.connected <;> simp [connect, hs, hc, initConnection]

/-- Witness for `connect_noop_only_when_connected`: connected state is left
untouched; calling `connect` in the Connecting scenario state burns a fresh
socket id; and calling it after an explicit `disconnect` (no socket
installed) also installs a fresh socket. -/
theorem connect_noop_only_when_connected_witness :
    connect (some "tok") connectedState = connectedState ∧
    (connect (some "tok") connectingState).nextSockId = 2 ∧
    (connect (some "tok") (disconnect connectedState)).socket =
      some { sockId := 1, connected := false } := by
  refine ⟨?_, ?_, ?_⟩
  · exact connect_noop_only_when_connected.1 connectedState (some "tok")
      { sockId := 0, connected := true } (by decide) rfl
  · have h := (connect_noop_only_when_connected.2.1 connectingState "tok"
      { sockId := 0, connected := false } (by decide) rfl).2
    rw [h]
    decide
  · have h := (connect_noop_only_when_connected.2.2.1 (disconnect connectedState) "tok"
      (by decide)).1
    rw [h]
    decide

end Theorems

